import Mathlib

/-!
Shallow embedding of the tidyblocks value model (`value.js`): the typed
scalar values (absent, missing, row number, column reference, datetime,
logical, number, text) and the three random-sampling values (exponential,
normal, uniform), together with their constructors, `equal`, and
`run(row, index, data)` methods.

Conventions of the embedding:
- JS numbers are modelled as rationals (`ℚ`); no NaN/Infinity.
- `util.MISSING` (from `util.js`, not part of the visible sources) is the
  null-like sentinel for missing data; it is modelled as JS `null`, whose
  `typeof` is `"object"`.
- `util.check(cond, msg)` throws `Error(msg)` when `cond` is falsy and
  `util.fail(msg)` always throws; fallible code is embedded in
  `Except String`, and each `util.check(cond, msg)` call appears as
  `if !cond then .error msg else …` in source order.
- A JS argument passed to a constructor or to `run` is either a primitive
  or a plain object (a row: finite map from column name to primitive).
-/

namespace TidyBlocks

/-- A JS primitive as stored in table cells and value payloads:
the MISSING sentinel (null), booleans, numbers, strings, or Date objects
(modelled by an integer timestamp-like code). -/
inductive Prim where
  | missing
  | bool (b : Bool)
  | num (x : ℚ)
  | str (s : String)
  | date (t : ℤ)
deriving Repr, DecidableEq

/-- A row object: a finite map from column name to primitive value. -/
abbrev RowObj := List (String × Prim)

/-- An arbitrary JS argument: a primitive or a row object. -/
inductive JSArg where
  | prim (p : Prim)
  | obj (o : RowObj)
deriving Repr, DecidableEq

/-- Modelled from the spec: `util.MISSING` (`util.js` is not among the
visible sources) is the SQL-NULL-like sentinel for missing data. -/
def MISSING : Prim := Prim.missing

/-- The JS `typeof` operator on the argument shapes of the model
(`typeof null` is `"object"`; `Date` objects are objects). -/
def typeof : JSArg → String
  | .prim .missing => "object"
  | .prim (.bool _) => "boolean"
  | .prim (.num _) => "number"
  | .prim (.str _) => "string"
  | .prim (.date _) => "object"
  | .obj _ => "object"

/-- JS truthiness of an argument (`null`, `false`, `0` and `""` are falsy;
objects and `Date`s are truthy). -/
def truthy : JSArg → Bool
  | .prim .missing => false
  | .prim (.bool b) => b
  | .prim (.num x) => decide (x ≠ 0)
  | .prim (.str s) => decide (s ≠ "")
  | .prim (.date _) => true
  | .obj _ => true

/-- Rendering of a primitive inside a template-literal error message. -/
def primStr : Prim → String
  | .missing => "null"
  | .bool b => if b then "true" else "false"
  | .num x => toString x
  | .str s => s
  | .date t => "Date(" ++ toString t ++ ")"

/-- Rendering of an argument inside a template-literal error message. -/
def argStr : JSArg → String
  | .prim p => primStr p
  | .obj _ => "[object Object]"

/-- The primitive payload of an argument. Only read behind a guard that has
already excluded objects, so the `.obj` branch is unreachable in use. -/
def asPrim : JSArg → Prim
  | .prim p => p
  | .obj _ => Prim.missing

/-- The numeric payload of an argument. Only read behind a
`typeof v === "number"` guard, so the default branch is unreachable in use. -/
def numVal : JSArg → ℚ
  | .prim (.num x) => x
  | _ => 0

/-- Whether an argument is a `Date` object. -/
def isDate : JSArg → Bool
  | .prim (.date _) => true
  | _ => false

/-- Modelled from the spec: the string-to-`Date` conversion used by
`util.makeDate` (`util.js` is not among the visible sources). An ISO
`YYYY-MM-DD` string converts to a Date code `y*10000 + m*100 + d`;
other strings do not convert. -/
def parseDate (s : String) : Option ℤ :=
  match s.splitOn ("-") with
  | [y, m, d] =>
    match y.toNat?, m.toNat?, d.toNat? with
    | some yn, some mn, some dn =>
      if 1 ≤ mn ∧ mn ≤ 12 ∧ 1 ≤ dn ∧ dn ≤ 31 then
        some ((yn : ℤ) * 10000 + (mn : ℤ) * 100 + (dn : ℤ))
      else none
    | _, _, _ => none
  | _ => none

/-- Modelled from the spec: `util.makeDate` (`util.js` is not among the
visible sources). Per the `ValueDatetime` class doc, a datetime can be
built from `MISSING`, a `Date` object, or a string convertible to a
`Date`: `makeDate` passes `MISSING` and `Date`s through unchanged and
converts a convertible string to the corresponding `Date`; anything else
is returned unchanged (and then rejected by the constructor's check). -/
def makeDate (v : JSArg) : JSArg :=
  match v with
  | .prim .missing => v
  | .prim (.date _) => v
  | .prim (.str s) =>
    match parseDate s with
    | some t => .prim (.date t)
    | none => v
  | _ => v

/-- First-match lookup of a key in a row object (JS property access). -/
def rowLookup (o : RowObj) (name : String) : Option Prim :=
  (o.find? (fun kv => kv.1 == name)).map (fun kv => kv.2)

/-- The JS `in` operator restricted to the shapes `ValueColumn.run` can
reach after its `typeof row === "object"` guard: key lookup on a row
object, always-false on a `Date` (its properties are never column names),
and a thrown `TypeError` on `null`. -/
def jsIn (name : String) (row : JSArg) : Except String Bool :=
  match row with
  | .obj o => .ok (rowLookup o name).isSome
  | .prim (.date _) => .ok false
  | _ => .error ("TypeError: cannot use the in operator")

/-- Marker that persisted JSON is a value (`FAMILY = '@value'`). -/
def FAMILY : String := "@value"

/-- A constructed value of the value model: the tagged union over the
eleven classes of `value.js`, each constructor holding the validated
payload its class stores. -/
inductive Value where
  | absent
  | missing
  | rownum
  | column (name : String)
  | datetime (value : Prim)
  | logical (value : Prim)
  | number (value : Prim)
  | text (value : Prim)
  | exponential (rate : ℚ)
  | normal (mean stdDev : ℚ)
  | uniform (low high : ℚ)
deriving Repr, DecidableEq

/-- The `name` tag each class passes to `super(FAMILY, name, …)`: the
variant discriminator of a value. -/
def Value.name : Value → String
  | .absent => "absent"
  | .missing => "missing"
  | .rownum => "rownum"
  | .column _ => "column"
  | .datetime _ => "datetime"
  | .logical _ => "logical"
  | .number _ => "number"
  | .text _ => "text"
  | .exponential _ => "exponential"
  | .normal _ _ => "normal"
  | .uniform _ _ => "uniform"

/-- `equal(other)` of the value model. `ValueAbsent`, `ValueMissing`,
`ValueRowNum` compare by `instanceof` alone; `ValueNormal` and
`ValueUniform` compare `instanceof` plus `===` on their two parameters
(as in the source). The nullary constant classes (`column`, `datetime`,
`logical`, `number`, `text`, `exponential`) inherit their `equal` from
`ExprNullary` (`expr.js`, not among the visible sources); that case is
modelled from the spec: same variant and `===`-equal stored payload. -/
def Value.equal : Value → Value → Bool
  | .absent, .absent => true
  | .missing, .missing => true
  | .rownum, .rownum => true
  | .column a, .column b => decide (a = b)
  | .datetime a, .datetime b => decide (a = b)
  | .logical a, .logical b => decide (a = b)
  | .number a, .number b => decide (a = b)
  | .text a, .text b => decide (a = b)
  | .exponential a, .exponential b => decide (a = b)
  | .normal m1 s1, .normal m2 s2 => decide (m1 = m2) && decide (s1 = s2)
  | .uniform l1 h1, .uniform l2 h2 => decide (l1 = l2) && decide (h1 = h2)
  | _, _ => false

/-- `new ValueColumn(name)`: `util.check(name && typeof name === 'string',
"Column name must be string")`, then store the name. The fallback branch is
unreachable once the check has passed. -/
def ValueColumn.mk (name : JSArg) : Except String Value :=
  if !(truthy name && (typeof name == "string")) then
    .error ("Column name must be string")
  else
    match name with
    | .prim (.str s) => .ok (.column s)
    | _ => .error ("unreachable: check established a string name")

/-- `new ValueDatetime(value)`: `value = util.makeDate(value)`, then
`util.check(value === MISSING || value instanceof Date, …)`. -/
def ValueDatetime.mk (value : JSArg) : Except String Value :=
  let value := makeDate value
  if !((value == JSArg.prim Prim.missing) || isDate value) then
    .error ("Datetime value \"" ++ argStr value ++ "\" must be MISSING, date, or convertible string")
  else
    .ok (.datetime (asPrim value))

/-- `new ValueLogical(value)`: `util.check(value === MISSING ||
typeof value === 'boolean', …)`. -/
def ValueLogical.mk (value : JSArg) : Except String Value :=
  if !((value == JSArg.prim Prim.missing) || (typeof value == "boolean")) then
    .error ("Logical value \"" ++ argStr value ++ "\" must be MISSING or true/false")
  else
    .ok (.logical (asPrim value))

/-- `new ValueNumber(value)`: `util.check(value === MISSING ||
typeof value === 'number', …)`. -/
def ValueNumber.mk (value : JSArg) : Except String Value :=
  if !((value == JSArg.prim Prim.missing) || (typeof value == "number")) then
    .error ("Numeric value \"" ++ argStr value ++ "\" must be missing or number")
  else
    .ok (.number (asPrim value))

/-- `new ValueText(value)`: `util.check(value === MISSING ||
typeof value === 'string', …)`. -/
def ValueText.mk (value : JSArg) : Except String Value :=
  if !((value == JSArg.prim Prim.missing) || (typeof value == "string")) then
    .error ("String value \"" ++ argStr value ++ "\" must be missing or string")
  else
    .ok (.text (asPrim value))

/-- `new ValueExponential(rate)`: `util.check(typeof rate === 'number' &&
rate > 0, …)`. -/
def ValueExponential.mk (rate : JSArg) : Except String Value :=
  if !((typeof rate == "number") && decide (0 < numVal rate)) then
    .error ("Rate \"" ++ argStr rate ++ "\" must be positive number")
  else
    .ok (.exponential (numVal rate))

/-- `new ValueNormal(mean, stdDev)`: `util.check(typeof mean === 'number',
…)` then `util.check(typeof stdDev === 'number' && stdDev >= 0, …)`. -/
def ValueNormal.mk (mean stdDev : JSArg) : Except String Value :=
  if !(typeof mean == "number") then
    .error ("Mean \"" ++ argStr mean ++ "\" must be a number")
  else if !((typeof stdDev == "number") && decide (0 ≤ numVal stdDev)) then
    .error ("Standard deviation \"" ++ argStr stdDev ++ "\" must be a non-negative number")
  else
    .ok (.normal (numVal mean) (numVal stdDev))

/-- `new ValueUniform(low, high)`: `util.check(typeof low === 'number', …)`,
`util.check(typeof high === 'number', …)`, `util.check(low <= high, …)`. -/
def ValueUniform.mk (low high : JSArg) : Except String Value :=
  if !(typeof low == "number") then
    .error ("Low end \"" ++ argStr low ++ "\" must be a number")
  else if !(typeof high == "number") then
    .error ("High end \"" ++ argStr high ++ "\" must be a number")
  else if !(decide (numVal low ≤ numVal high)) then
    .error ("Low end \"" ++ argStr low ++ "\" must not be greater than high end \"" ++ argStr high ++ "\"")
  else
    .ok (.uniform (numVal low) (numVal high))

/-- `ValueAbsent.run`: `util.fail('Missing expression')` — always throws. -/
def ValueAbsent.run (row : JSArg) (i : ℤ) (data : List RowObj) : Except String Prim :=
  .error ("Missing expression")

/-- `ValueMissing.run`: returns `util.MISSING`. -/
def ValueMissing.run (row : JSArg) (i : ℤ) (data : List RowObj) : Except String Prim :=
  .ok MISSING

/-- `ValueRowNum.run`: `return i` — the row index exactly as the evaluator
passed it, unchanged. -/
def ValueRowNum.run (row : JSArg) (i : ℤ) (data : List RowObj) : Except String Prim :=
  .ok (.num (i : ℚ))

/-- `ValueColumn.run(row, i, data)`: check `0 <= i && i < data.length`,
check `typeof row === 'object'`, check `this.value in row` (note the
absent-key message interpolates `this.name`, which is the variant tag
`'column'`, not the column name), then return `row[this.value]`. -/
def ValueColumn.run (name : String) (row : JSArg) (i : ℤ) (data : List RowObj) :
    Except String Prim :=
  if !(decide (0 ≤ i) && decide (i < (data.length : ℤ))) then
    .error ("Row index " ++ toString i ++ " out of range")
  else if !(typeof row == "object") then
    .error ("Row must be object")
  else
    match jsIn name row with
    | .error e => .error e
    | .ok present =>
      if !present then
        .error ("column not in row " ++ toString i)
      else
        match row with
        | .obj o =>
          match rowLookup o name with
          | some p => .ok p
          | none => .error ("unreachable: presence was checked")
        | _ => .error ("unreachable: jsIn only succeeds on objects or dates")

/-- `ValueDatetime.run`: returns the stored payload. -/
def ValueDatetime.run (value : Prim) (row : JSArg) (i : ℤ) (data : List RowObj) :
    Except String Prim :=
  .ok value

/-- `ValueLogical.run`: returns the stored payload. -/
def ValueLogical.run (value : Prim) (row : JSArg) (i : ℤ) (data : List RowObj) :
    Except String Prim :=
  .ok value

/-- `ValueNumber.run`: returns the stored payload. -/
def ValueNumber.run (value : Prim) (row : JSArg) (i : ℤ) (data : List RowObj) :
    Except String Prim :=
  .ok value

/-- `ValueText.run`: returns the stored payload. -/
def ValueText.run (value : Prim) (row : JSArg) (i : ℤ) (data : List RowObj) :
    Except String Prim :=
  .ok value

/-- Modelled from the spec: the `random` library's uniform generator (an
external dependency, not repository code) produces a sample by linear
scaling of a uniform draw `u ∈ [0, 1]` into `[low, high]`. -/
def uniformGen (low high u : ℚ) : ℚ :=
  low + u * (high - low)

/-- `ValueUniform.run`: `return this.generator()`, where the generator is
`random.uniform(low, high)` seeded at construction; `u` is the next raw
uniform draw of the node's own generator. -/
def ValueUniform.run (low high u : ℚ) (row : JSArg) (i : ℤ) (data : List RowObj) :
    Except String Prim :=
  .ok (.num (uniformGen low high u))

/-- A construction attempt succeeded (no check failed). -/
def constructed (e : Except String Value) : Prop :=
  ∃ w, e = Except.ok w

deriving instance DecidableEq for Except

/-- `Value.equal` decides structural equality of constructed values:
`equal v w` is true exactly when `v` and `w` are the same variant with the
same stored payload(s). -/
theorem equal_true_iff (v w : Value) : Value.equal v w = true ↔ v = w := by
  cases v <;> cases w <;> simp [Value.equal]

/-- `Value.equal` respects only the variant tag when variants differ:
if the tags differ the values are distinct. -/
theorem name_ne_of_ne (v w : Value) (h : Value.name v ≠ Value.name w) : v ≠ w := by
  intro hvw
  exact h (hvw ▸ rfl)

/-- C4: value equality is reflexive, symmetric, and variant-discriminating:
`v.equal v` is true for every value, `v.equal w = w.equal v` for all values,
`v.equal w` is false whenever `v` and `w` carry different variant tags, and
two values of the same variant with the same payloads (that is, identical
values) compare equal. -/
theorem value_equal_refl_symm_discriminating :
    (∀ v : Value, Value.equal v v = true)
    ∧ (∀ v w : Value, Value.equal v w = Value.equal w v)
    ∧ (∀ v w : Value, Value.name v ≠ Value.name w → Value.equal v w = false)
    ∧ (∀ v w : Value, v = w → Value.equal v w = true) := by
  refine ⟨fun v => (equal_true_iff v v).mpr rfl, fun v w => ?_, fun v w h => ?_, ?_⟩
  · rw [Bool.eq_iff_iff, equal_true_iff, equal_true_iff]
    exact eq_comm
  · cases hb : Value.equal v w
    · rfl
    · exact absurd ((equal_true_iff v w).mp hb) (name_ne_of_ne v w h)
  · rintro v w rfl
    exact (equal_true_iff v v).mpr rfl

/-- Witness for C4 at concrete values: `Number(1)` equals itself, and
`Number(1)` is never equal to `Logical(true)` (distinct variant tags). -/
theorem value_equal_refl_symm_discriminating_witness :
    Value.equal (.number (.num 1)) (.number (.num 1)) = true
    ∧ Value.name (.number (.num 1)) ≠ Value.name (.logical (.bool true))
    ∧ Value.equal (.number (.num 1)) (.logical (.bool true)) = false :=
  ⟨value_equal_refl_symm_discriminating.1 _,
   by decide,
   value_equal_refl_symm_discriminating.2.2.1 _ _ (by decide)⟩

/-- C5: evaluating an `Absent` value always fails (with the fatal
`Missing expression` error) and never returns a value, for every row,
row index, and table; and `Absent.equal(other)` is true exactly when
`other` is also an `Absent` value. -/
theorem absent_never_runs_equal_iff_absent :
    (∀ (row : JSArg) (i : ℤ) (data : List RowObj),
      ValueAbsent.run row i data = .error ("Missing expression"))
    ∧ (∀ w : Value, Value.equal .absent w = true ↔ w = .absent) := by
  refine ⟨fun row i data => rfl, fun w => ?_⟩
  rw [equal_true_iff]
  exact ⟨Eq.symm, Eq.symm⟩

/-- C6: every constant value's `run(row, index, table)` returns exactly the
stored payload (`MISSING` for the `Missing` value), independent of the row,
index, and table arguments. -/
theorem constants_run_returns_payload :
    (∀ (row : JSArg) (i : ℤ) (data : List RowObj),
      ValueMissing.run row i data = .ok MISSING)
    ∧ (∀ (p : Prim) (row : JSArg) (i : ℤ) (data : List RowObj),
      ValueLogical.run p row i data = .ok p
      ∧ ValueNumber.run p row i data = .ok p
      ∧ ValueText.run p row i data = .ok p
      ∧ ValueDatetime.run p row i data = .ok p) :=
  ⟨fun _ _ _ => rfl, fun _ _ _ _ => ⟨rfl, rfl, rfl, rfl⟩⟩

/-- C10: each constant constructor (`Datetime`, `Logical`, `Number`,
`Text`) accepts the `MISSING` sentinel as its payload, and the resulting
value's `run` returns `MISSING` for every row, index, and table. -/
theorem constructors_accept_missing :
    ValueDatetime.mk (.prim .missing) = .ok (.datetime .missing)
    ∧ ValueLogical.mk (.prim .missing) = .ok (.logical .missing)
    ∧ ValueNumber.mk (.prim .missing) = .ok (.number .missing)
    ∧ ValueText.mk (.prim .missing) = .ok (.text .missing)
    ∧ (∀ (row : JSArg) (i : ℤ) (data : List RowObj),
      ValueDatetime.run .missing row i data = .ok MISSING
      ∧ ValueLogical.run .missing row i data = .ok MISSING
      ∧ ValueNumber.run .missing row i data = .ok MISSING
      ∧ ValueText.run .missing row i data = .ok MISSING) :=
  ⟨rfl, rfl, rfl, rfl, fun _ _ _ => ⟨rfl, rfl, rfl, rfl⟩⟩

/-- C1: with the row index in `[0, data.length)`, `Column(name).run` on a
row object returns the row's value for `name` when the key is present and
fails with the absent-key lookup error when it is not; with the row index
out of `[0, data.length)` it fails with the out-of-range lookup error. -/
theorem column_run_lookup (name : String) (o : RowObj) (i : ℤ) (data : List RowObj) :
    (0 ≤ i ∧ i < (data.length : ℤ) →
      (∀ p : Prim, rowLookup o name = some p →
        ValueColumn.run name (.obj o) i data = .ok p)
      ∧ (rowLookup o name = none →
        ValueColumn.run name (.obj o) i data = .error ("column not in row " ++ toString i)))
    ∧ (¬(0 ≤ i ∧ i < (data.length : ℤ)) →
      ValueColumn.run name (.obj o) i data =
        .error ("Row index " ++ toString i ++ " out of range")) := by
  constructor
  · rintro ⟨h0, hlen⟩
    constructor
    · intro p hp
      simp [ValueColumn.run, h0, hlen, typeof, jsIn, hp]
    · intro hp
      simp [ValueColumn.run, h0, hlen, typeof, jsIn, hp]
  · intro h
    have hb : (decide (0 ≤ i) && decide (i < (data.length : ℤ))) = false := by
      rcases not_and_or.mp h with h1 | h1 <;> simp [h1]
    simp [ValueColumn.run, hb]

/-- Witness for C1 at concrete inputs: a present key is returned, an
absent key fails with the lookup error, and an out-of-range index fails
with the range error. -/
theorem column_run_lookup_witness :
    ValueColumn.run ("x") (.obj [(("x"), Prim.num 5)]) 0 [[(("x"), Prim.num 5)]] = .ok (.num 5)
    ∧ ValueColumn.run ("y") (.obj []) 0 [[]] = .error ("column not in row " ++ toString (0 : ℤ))
    ∧ ValueColumn.run ("x") (.obj []) 3 [[]] =
      .error ("Row index " ++ toString (3 : ℤ) ++ " out of range") :=
  ⟨((column_run_lookup ("x") ([(("x"), Prim.num 5)]) 0 ([[(("x"), Prim.num 5)]])).1
      (by decide)).1 (Prim.num 5) (by decide),
   ((column_run_lookup ("y") ([]) 0 ([[]])).1 (by decide)).2 (by decide),
   (column_run_lookup ("x") ([]) 3 ([[]])).2 (by decide)⟩

/-- C2: `ValueRowNum.run` returns the row index exactly as passed. Under
the evaluator convention established by `ValueColumn.run`'s own range
check (valid indices are `[0, data.length)`, so the first row has index
0), the first row of a one-row table evaluates to `0`, not to its 1-based
row number `1` — the documented "row number, starting from 1" is not what
the code computes. -/
theorem rownum_run_returns_raw_index :
    (∀ (row : JSArg) (i : ℤ) (data : List RowObj),
      ValueRowNum.run row i data = .ok (.num (i : ℚ)))
    ∧ ValueRowNum.run (.obj []) 0 [[]] = .ok (.num 0)
    ∧ ValueColumn.run ("x") (.obj [(("x"), Prim.num 5)]) 0 [[(("x"), Prim.num 5)]] = .ok (.num 5)
    ∧ (0 : ℚ) ≠ 1 := by
  refine ⟨fun _ _ _ => rfl, rfl, by decide, by norm_num⟩

/-- C3: construction validates payloads and fails with the error message
naming the violated constraint: `Number` accepts exactly `MISSING` or a
number; `Uniform` requires both ends numeric and `low ≤ high`, failing on
`low > high`; `Exponential` requires a positive number; `Normal` requires
a numeric mean and a non-negative numeric standard deviation; construction
succeeds in all other cases. -/
theorem construction_validates_payloads :
    (∀ v : JSArg, constructed (ValueNumber.mk v) ↔
      (v = .prim .missing ∨ ∃ x : ℚ, v = .prim (.num x)))
    ∧ (∀ v : JSArg, ¬(v = .prim .missing ∨ ∃ x : ℚ, v = .prim (.num x)) →
      ValueNumber.mk v = .error ("Numeric value \"" ++ argStr v ++ "\" must be missing or number"))
    ∧ (∀ lo hi : ℚ, constructed (ValueUniform.mk (.prim (.num lo)) (.prim (.num hi))) ↔ lo ≤ hi)
    ∧ (∀ lo hi : ℚ, hi < lo →
      ValueUniform.mk (.prim (.num lo)) (.prim (.num hi)) =
        .error ("Low end \"" ++ argStr (.prim (.num lo)) ++
          "\" must not be greater than high end \"" ++ argStr (.prim (.num hi)) ++ "\""))
    ∧ (∀ l h : JSArg, constructed (ValueUniform.mk l h) →
      ∃ x y : ℚ, l = .prim (.num x) ∧ h = .prim (.num y) ∧ x ≤ y)
    ∧ (∀ v : JSArg, constructed (ValueExponential.mk v) ↔ ∃ r : ℚ, v = .prim (.num r) ∧ 0 < r)
    ∧ (∀ v : JSArg, (¬∃ r : ℚ, v = .prim (.num r) ∧ 0 < r) →
      ValueExponential.mk v = .error ("Rate \"" ++ argStr v ++ "\" must be positive number"))
    ∧ (∀ m s : JSArg, constructed (ValueNormal.mk m s) ↔
      ((∃ x : ℚ, m = .prim (.num x)) ∧ (∃ y : ℚ, s = .prim (.num y) ∧ 0 ≤ y)))
    ∧ (∀ m s : JSArg, (¬∃ x : ℚ, m = .prim (.num x)) →
      ValueNormal.mk m s = .error ("Mean \"" ++ argStr m ++ "\" must be a number"))
    ∧ (∀ x : ℚ, ∀ s : JSArg, (¬∃ y : ℚ, s = .prim (.num y) ∧ 0 ≤ y) →
      ValueNormal.mk (.prim (.num x)) s =
        .error ("Standard deviation \"" ++ argStr s ++ "\" must be a non-negative number")) := by
  refine ⟨fun v => ?_, fun v hv => ?_, fun lo hi => ?_, fun lo hi hlh => ?_,
    fun l h hc => ?_, fun v => ?_, fun v hv => ?_, fun m s => ?_, fun m s hm => ?_,
    fun x s hs => ?_⟩
  · rcases v with (_ | b | x | t | d) | o <;>
      simp [ValueNumber.mk, constructed, typeof]
  · rcases v with (_ | b | x | t | d) | o <;>
      simp_all [ValueNumber.mk, constructed, typeof]
  · by_cases hlh : lo ≤ hi <;>
      simp [ValueUniform.mk, constructed, typeof, numVal, hlh]
  · simp [ValueUniform.mk, typeof, numVal, not_le.mpr hlh]
  · rcases l with (_ | b | x | t | d) | o <;>
      rcases h with (_ | b2 | y | t2 | d2) | o2 <;>
      simp_all [ValueUniform.mk, constructed, typeof, numVal]
    by_cases hxy : x ≤ y <;> simp_all
  · rcases v with (_ | b | x | t | d) | o <;>
      simp [ValueExponential.mk, constructed, typeof, numVal]
    rcases le_or_lt x 0 with hx | hx
    · simp [hx, hx.not_lt]
    · simp [hx, hx.not_le]
  · rcases v with (_ | b | x | t | d) | o <;>
      simp_all [ValueExponential.mk, constructed, typeof, numVal]
  · rcases m with (_ | b | x | t | d) | o <;>
      rcases s with (_ | b2 | y | t2 | d2) | o2 <;>
      simp_all [ValueNormal.mk, constructed, typeof, numVal]
    rcases le_or_lt 0 y with hy | hy
    · simp [hy, hy.not_lt]
    · simp [hy, hy.not_le]
  · rcases m with (_ | b | x | t | d) | o <;>
      simp_all [ValueNormal.mk, constructed, typeof, numVal]
  · rcases s with (_ | b2 | y | t2 | d2) | o2 <;>
      simp_all [ValueNormal.mk, constructed, typeof, numVal]

/-- Witness for C3 at concrete payloads: accepted and rejected inputs for
each constructor, with the constraint-naming error messages. -/
theorem construction_validates_payloads_witness :
    constructed (ValueNumber.mk (.prim (.num 3)))
    ∧ ValueNumber.mk (.prim (.bool true)) =
      .error ("Numeric value \"true\" must be missing or number")
    ∧ constructed (ValueUniform.mk (.prim (.num 1)) (.prim (.num 2)))
    ∧ ValueUniform.mk (.prim (.num 3)) (.prim (.num 1)) =
      .error ("Low end \"3\" must not be greater than high end \"1\"")
    ∧ constructed (ValueExponential.mk (.prim (.num 1)))
    ∧ ValueExponential.mk (.prim (.num 0)) = .error ("Rate \"0\" must be positive number")
    ∧ constructed (ValueNormal.mk (.prim (.num 0)) (.prim (.num 1)))
    ∧ ValueNormal.mk (.prim (.num 0)) (.prim (.num (-1))) =
      .error ("Standard deviation \"-1\" must be a non-negative number") :=
  ⟨(construction_validates_payloads.1 _).mpr (Or.inr ⟨3, rfl⟩),
   construction_validates_payloads.2.1 _ (by simp),
   (construction_validates_payloads.2.2.1 1 2).mpr (by norm_num),
   construction_validates_payloads.2.2.2.1 3 1 (by norm_num),
   (construction_validates_payloads.2.2.2.2.2.1 _).mpr ⟨1, rfl, by norm_num⟩,
   construction_validates_payloads.2.2.2.2.2.2.1 _ (by simp),
   (construction_validates_payloads.2.2.2.2.2.2.2.1 _ _).mpr ⟨⟨0, rfl⟩, ⟨1, rfl, by norm_num⟩⟩,
   construction_validates_payloads.2.2.2.2.2.2.2.2.2 0 _ (by simp)⟩

/-- C7: a `Uniform` value with equal bounds returns exactly the low bound
on every evaluation, whatever uniform draw its generator produces. -/
theorem uniform_equal_bounds_constant (low high u : ℚ) (h : low = high)
    (row : JSArg) (i : ℤ) (data : List RowObj) :
    ValueUniform.run low high u row i data = .ok (.num low) := by
  subst h
  simp [ValueUniform.run, uniformGen]

/-- Witness for C7: `Uniform(2, 2)` constructs successfully and always
samples exactly `2`. -/
theorem uniform_equal_bounds_constant_witness :
    ValueUniform.mk (.prim (.num 2)) (.prim (.num 2)) = .ok (.uniform 2 2)
    ∧ ValueUniform.run 2 2 (1/3) (.obj []) 0 [] = .ok (.num 2) :=
  ⟨by decide, uniform_equal_bounds_constant 2 2 (1/3) rfl (.obj []) 0 []⟩

/-- C8: `Column(name).run` also fails when the row argument is not an
object (in the `typeof` sense), even when the row index is within
`[0, data.length)` — a third failure case beyond an absent name and an
out-of-range index. -/
theorem column_run_nonobject_row_fails (name : String) (row : JSArg) (i : ℤ)
    (data : List RowObj) (hi : 0 ≤ i ∧ i < (data.length : ℤ))
    (hrow : typeof row ≠ ("object")) :
    ValueColumn.run name row i data = .error ("Row must be object") := by
  simp [ValueColumn.run, hi.1, hi.2, hrow]

/-- Witness for C8: a numeric row argument with an in-range index fails
with the row-shape error. -/
theorem column_run_nonobject_row_fails_witness :
    ValueColumn.run ("x") (.prim (.num 7)) 0 [[]] = .error ("Row must be object") :=
  column_run_nonobject_row_fails ("x") (.prim (.num 7)) 0 ([[]]) (by decide) (by decide)

/-- C9: `Column(name)` construction succeeds exactly when the name is a
non-empty string (the empty string is rejected); construction takes no
table and performs no column-existence validation. -/
theorem column_mk_nonempty_string :
    (∀ name : JSArg, constructed (ValueColumn.mk name) ↔
      ∃ s : String, name = .prim (.str s) ∧ s ≠ (""))
    ∧ (∀ s : String, s ≠ ("") → ValueColumn.mk (.prim (.str s)) = .ok (.column s))
    ∧ ValueColumn.mk (.prim (.str (""))) = .error ("Column name must be string") := by
  refine ⟨fun name => ?_, fun s hs => ?_, rfl⟩
  · rcases name with (_ | b | x | t | d) | o
    · simp [ValueColumn.mk, constructed, truthy, typeof]
    · cases b <;> simp [ValueColumn.mk, constructed, truthy, typeof]
    · simp [ValueColumn.mk, constructed, truthy, typeof]
    · rcases eq_or_ne t ("") with hs | hs <;>
        simp [ValueColumn.mk, constructed, truthy, typeof, hs]
    · simp [ValueColumn.mk, constructed, truthy, typeof]
    · simp [ValueColumn.mk, constructed, truthy, typeof]
  · simp [ValueColumn.mk, truthy, typeof, hs]

/-- Witness for C9: the one-character name `"x"` is accepted. -/
theorem column_mk_nonempty_string_witness :
    ValueColumn.mk (.prim (.str ("x"))) = .ok (.column ("x")) :=
  column_mk_nonempty_string.2.1 ("x") (by decide)

end TidyBlocks
